import Mathlib

/-
Shallow embedding of the two chaincode modules of the pbc repository:
  src/policeman-record/chaincode-go/smartcontract.go  (police personnel records)
  src/fir-record/chaincode-go/smartcontract.go        (FIR case records)

The world state is modelled as an association list from string keys to stored
values.  A stored value is the JSON blob written by one of the two modules,
modelled structurally as a sum of the two record types.  Every contract
function receives the caller's MSP identifier (the only part of the
transaction context the code inspects) and the current store, and returns
either an error or its result together with the new store.  A failed
invocation leaves the state unchanged: the platform discards the write set of
a failed transaction, which the embedding renders by the error branch
carrying no store.
-/

/-- PolicePersonnel record (policeman-record smartcontract.go, lines 15-28). -/
structure PolicePersonnel where
  OfficerID : String
  Name : String
  Rank : String
  DOB : String
  Posting : String
  BadgeNumber : String
  EmploymentStatus : String
  DateOfJoining : String
  Award : String
  Suspension : String
  LastUpdatedBy : String
  LastUpdatedOn : String
deriving DecidableEq, Repr

/-- FIR record (fir-record smartcontract.go, lines 16-24), fields in the
declaration order of the Go struct. -/
structure FIR where
  Accused : String
  CrimeType : String
  Description : String
  FiledBy : String
  FIRID : String
  Status : String
  Timestamp : String
deriving DecidableEq, Repr

/-- A value stored in the world state: the JSON serialization of one of the
two record kinds. -/
inductive StoredValue where
  | personnel (p : PolicePersonnel)
  | fir (f : FIR)
deriving DecidableEq, Repr

/-- The world state: a finite map from keys to stored blobs, modelled as an
association list. -/
abbrev Store := List (String × StoredValue)

/-- stub.GetState: the bytes stored at a key, or absent. -/
def getState : Store → String → Option StoredValue
  | [], _ => none
  | e :: rest, k => if e.1 = k then some e.2 else getState rest k

/-- stub.PutState: upsert, replacing the binding of the key if present. -/
def putState : Store → String → StoredValue → Store
  | [], k, v => [(k, v)]
  | e :: rest, k, v => if e.1 = k then (k, v) :: rest else e :: putState rest k v

/-- stub.DelState: remove the binding of the key. -/
def delState : Store → String → Store
  | [], _ => []
  | e :: rest, k => if e.1 = k then delState rest k else e :: delState rest k

/-- Errors the two modules can raise (their fmt.Errorf messages, by class). -/
inductive CCErr where
  | authDenied
  | alreadyExists (id : String)
  | notFound (id : String)
deriving DecidableEq, Repr

/-- onlyPolice (both modules): deny unless the caller MSP is Org1MSP. -/
def onlyPolice (mspid : String) : Except CCErr Unit :=
  if mspid ≠ "Org1MSP" then .error .authDenied else .ok ()

/-- json.Unmarshal of a stored blob into a PolicePersonnel struct.  A
personnel blob yields its own fields; a FIR blob shares no JSON field names
with the personnel struct (even case-insensitively), so Go's Unmarshal leaves
every field at its zero value, the empty string. -/
def decodePersonnel : StoredValue → PolicePersonnel
  | .personnel p => p
  | .fir _ => ⟨"", "", "", "", "", "", "", "", "", "", "", ""⟩

/-- json.Unmarshal of a stored blob into a FIR struct; a personnel blob
yields the zero-valued FIR, for the same reason as in decodePersonnel. -/
def decodeFIR : StoredValue → FIR
  | .fir f => f
  | .personnel _ => ⟨"", "", "", "", "", "", ""⟩

/-- The single record seeded by the personnel module's InitLedger. -/
def seedOfficer : PolicePersonnel :=
  ⟨"POL12345", "Inspector Anjali Mehta", "Inspector", "1985-08-15",
   "Cyber Crime Unit, Mumbai", "MUM-4521", "Active", "2010-06-12",
   "Gallantry Award 2018", "", "Org1", "2025-04-06"⟩

/-- InitLedger of the personnel module: gated, then writes the seed record
under its OfficerID. -/
def InitLedgerPersonnel (mspid : String) (st : Store) : Except CCErr Store :=
  match onlyPolice mspid with
  | .error e => .error e
  | .ok _ => .ok (putState st seedOfficer.OfficerID (.personnel seedOfficer))

/-- PersonnelExists: true iff some bytes are stored at the key; not gated. -/
def PersonnelExists (mspid : String) (st : Store) (officerID : String) :
    Except CCErr Bool :=
  .ok ((getState st officerID).isSome)

/-- CreatePolicePersonnel: gate, existence check, then write the record
assembled from the arguments under officerID. -/
def CreatePolicePersonnel (mspid : String) (st : Store)
    (officerID name rank dob posting badgeNumber employmentStatus
     dateOfJoining award suspension lastUpdatedBy lastUpdatedOn : String) :
    Except CCErr Store :=
  match onlyPolice mspid with
  | .error e => .error e
  | .ok _ =>
    match PersonnelExists mspid st officerID with
    | .error e => .error e
    | .ok ex =>
      if ex then .error (.alreadyExists officerID)
      else .ok (putState st officerID (.personnel
        ⟨officerID, name, rank, dob, posting, badgeNumber, employmentStatus,
         dateOfJoining, award, suspension, lastUpdatedBy, lastUpdatedOn⟩))

/-- ReadPolicePersonnel: gated; NotFound on absent key, else decode. -/
def ReadPolicePersonnel (mspid : String) (st : Store) (officerID : String) :
    Except CCErr PolicePersonnel :=
  match onlyPolice mspid with
  | .error e => .error e
  | .ok _ =>
    match getState st officerID with
    | none => .error (.notFound officerID)
    | some v => .ok (decodePersonnel v)

/-- UpdatePolicePersonnel: gate, existence check, then full-record replace. -/
def UpdatePolicePersonnel (mspid : String) (st : Store)
    (officerID name rank dob posting badgeNumber employmentStatus
     dateOfJoining award suspension lastUpdatedBy lastUpdatedOn : String) :
    Except CCErr Store :=
  match onlyPolice mspid with
  | .error e => .error e
  | .ok _ =>
    match PersonnelExists mspid st officerID with
    | .error e => .error e
    | .ok ex =>
      if !ex then .error (.notFound officerID)
      else .ok (putState st officerID (.personnel
        ⟨officerID, name, rank, dob, posting, badgeNumber, employmentStatus,
         dateOfJoining, award, suspension, lastUpdatedBy, lastUpdatedOn⟩))

/-- DeletePolicePersonnel: gate, existence check, then remove the key. -/
def DeletePolicePersonnel (mspid : String) (st : Store) (officerID : String) :
    Except CCErr Store :=
  match onlyPolice mspid with
  | .error e => .error e
  | .ok _ =>
    match PersonnelExists mspid st officerID with
    | .error e => .error e
    | .ok ex =>
      if !ex then .error (.notFound officerID)
      else .ok (delState st officerID)

/-- GetAllPersonnel: unbounded range scan decoding every value as a
personnel record; not gated. -/
def GetAllPersonnel (mspid : String) (st : Store) :
    Except CCErr (List PolicePersonnel) :=
  .ok (st.map (fun e => decodePersonnel e.2))

/-- The two records seeded by the FIR module's InitLedger. -/
def seedFIR1 : FIR :=
  ⟨"John Doe", "Theft", "Stolen bike", "OfficerA", "FIR1", "Open",
   "2024-01-01T10:00:00Z"⟩

/-- Second seeded FIR record. -/
def seedFIR2 : FIR :=
  ⟨"Jane Smith", "Assault", "Physical altercation", "OfficerB", "FIR2",
   "Investigation", "2024-01-02T14:30:00Z"⟩

/-- InitLedger of the FIR module: NOT gated; writes the two seed records. -/
def InitLedgerFIR (mspid : String) (st : Store) : Except CCErr Store :=
  .ok (putState (putState st seedFIR1.FIRID (.fir seedFIR1))
        seedFIR2.FIRID (.fir seedFIR2))

/-- FIRExists: true iff some bytes are stored at the key; not gated. -/
def FIRExists (mspid : String) (st : Store) (firID : String) :
    Except CCErr Bool :=
  .ok ((getState st firID).isSome)

/-- FileFIR: gate, existence check, then write the record assembled from the
arguments under firID. -/
def FileFIR (mspid : String) (st : Store)
    (firID filedBy accused crimeType description status timestamp : String) :
    Except CCErr Store :=
  match onlyPolice mspid with
  | .error e => .error e
  | .ok _ =>
    match FIRExists mspid st firID with
    | .error e => .error e
    | .ok ex =>
      if ex then .error (.alreadyExists firID)
      else .ok (putState st firID (.fir
        ⟨accused, crimeType, description, filedBy, firID, status, timestamp⟩))

/-- ReadFIR: NOT gated; NotFound on absent key, else decode. -/
def ReadFIR (mspid : String) (st : Store) (firID : String) :
    Except CCErr FIR :=
  match getState st firID with
  | none => .error (.notFound firID)
  | some v => .ok (decodeFIR v)

/-- UpdateFIR: gate, read the existing record, overwrite only its Status
field, write it back under the same key. -/
def UpdateFIR (mspid : String) (st : Store) (firID status : String) :
    Except CCErr Store :=
  match onlyPolice mspid with
  | .error e => .error e
  | .ok _ =>
    match ReadFIR mspid st firID with
    | .error e => .error e
    | .ok fir => .ok (putState st firID (.fir { fir with Status := status }))

/-- DeleteFIR: gate, existence check, then remove the key. -/
def DeleteFIR (mspid : String) (st : Store) (firID : String) :
    Except CCErr Store :=
  match onlyPolice mspid with
  | .error e => .error e
  | .ok _ =>
    match FIRExists mspid st firID with
    | .error e => .error e
    | .ok ex =>
      if !ex then .error (.notFound firID)
      else .ok (delState st firID)

/-- GetAllFIRs: unbounded range scan decoding every value as a FIR record;
not gated. -/
def GetAllFIRs (mspid : String) (st : Store) : Except CCErr (List FIR) :=
  .ok (st.map (fun e => decodeFIR e.2))

/-- Filing a list of FIR records one after another, as a client issuing N
FileFIR transactions would; each record supplies the seven arguments. -/
def fileAllFIRs (mspid : String) : Store → List FIR → Except CCErr Store
  | st, [] => .ok st
  | st, f :: rest =>
    match FileFIR mspid st f.FIRID f.FiledBy f.Accused f.CrimeType
        f.Description f.Status f.Timestamp with
    | .error e => .error e
    | .ok st2 => fileAllFIRs mspid st2 rest

/-- Creating a list of personnel records one after another, each record
supplying the twelve arguments of CreatePolicePersonnel. -/
def createAllPersonnel (mspid : String) :
    Store → List PolicePersonnel → Except CCErr Store
  | st, [] => .ok st
  | st, p :: rest =>
    match CreatePolicePersonnel mspid st p.OfficerID p.Name p.Rank p.DOB
        p.Posting p.BadgeNumber p.EmploymentStatus p.DateOfJoining p.Award
        p.Suspension p.LastUpdatedBy p.LastUpdatedOn with
    | .error e => .error e
    | .ok st2 => createAllPersonnel mspid st2 rest

/-- The identifier field embedded in a stored value. -/
def embeddedId : StoredValue → String
  | .personnel p => p.OfficerID
  | .fir f => f.FIRID

/-- States reachable from the empty store by the two modules' own mutating
operations, under any caller identity.  The store is shared, following the
single unpartitioned keyspace of the data model. -/
inductive Reach : Store → Prop where
  | empty : Reach []
  | initP (mspid : String) (st st2 : Store) :
      Reach st → InitLedgerPersonnel mspid st = .ok st2 → Reach st2
  | createP (mspid : String) (st st2 : Store)
      (a b c d e f g h i j k l : String) :
      Reach st →
      CreatePolicePersonnel mspid st a b c d e f g h i j k l = .ok st2 →
      Reach st2
  | updateP (mspid : String) (st st2 : Store)
      (a b c d e f g h i j k l : String) :
      Reach st →
      UpdatePolicePersonnel mspid st a b c d e f g h i j k l = .ok st2 →
      Reach st2
  | deleteP (mspid : String) (st st2 : Store) (a : String) :
      Reach st → DeletePolicePersonnel mspid st a = .ok st2 → Reach st2
  | initF (mspid : String) (st st2 : Store) :
      Reach st → InitLedgerFIR mspid st = .ok st2 → Reach st2
  | fileF (mspid : String) (st st2 : Store) (a b c d e f g : String) :
      Reach st → FileFIR mspid st a b c d e f g = .ok st2 → Reach st2
  | updateF (mspid : String) (st st2 : Store) (a b : String) :
      Reach st → UpdateFIR mspid st a b = .ok st2 → Reach st2
  | deleteF (mspid : String) (st st2 : Store) (a : String) :
      Reach st → DeleteFIR mspid st a = .ok st2 → Reach st2

/-- The claimed invariant: every stored value's embedded identifier equals
its storage key. -/
def IdMatchesKey (st : Store) : Prop :=
  ∀ e ∈ st, embeddedId e.2 = e.1

/-- The invariant that actually holds on the shared store: the embedded
identifier equals the key, except for FIR values with a blank FIRID, which
arise when UpdateFIR is applied to a key holding a personnel blob. -/
def IdMatchesKeyOrBlankFIR (st : Store) : Prop :=
  ∀ e ∈ st, embeddedId e.2 = e.1 ∨ (∃ f, e.2 = StoredValue.fir f ∧ f.FIRID = "")

/- Store lemmas. -/

theorem getState_putState_self (st : Store) (k : String) (v : StoredValue) :
    getState (putState st k v) k = some v := by
  induction st with
  | nil => simp [putState, getState]
  | cons e rest ih =>
    by_cases h : e.1 = k
    · simp [putState, getState, h]
    · simp [putState, getState, h, ih]

theorem getState_putState_ne (st : Store) (k k' : String) (v : StoredValue)
    (h : k' ≠ k) : getState (putState st k v) k' = getState st k' := by
  induction st with
  | nil => simp [putState, getState, Ne.symm h]
  | cons e rest ih =>
    by_cases he : e.1 = k
    · have h1 : e.1 ≠ k' := by rw [he]; exact Ne.symm h
      simp [putState, getState, he, Ne.symm h, h1]
    · by_cases he' : e.1 = k'
      · simp [putState, getState, he, he', h]
      · simp [putState, getState, he, he', ih]

theorem getState_delState_self (st : Store) (k : String) :
    getState (delState st k) k = none := by
  induction st with
  | nil => simp [delState, getState]
  | cons e rest ih =>
    by_cases h : e.1 = k
    · simp [delState, h, ih]
    · simp [delState, getState, h, ih]

theorem getState_delState_ne (st : Store) (k k' : String) (h : k' ≠ k) :
    getState (delState st k) k' = getState st k' := by
  induction st with
  | nil => simp [delState]
  | cons e rest ih =>
    by_cases he : e.1 = k
    · simp [delState, getState, he, Ne.symm h, ih]
    · by_cases he' : e.1 = k'
      · simp [delState, getState, he, he', h]
      · simp [delState, getState, he, he', ih]

theorem putState_absent (st : Store) (k : String) (v : StoredValue)
    (h : getState st k = none) : putState st k v = st ++ [(k, v)] := by
  induction st with
  | nil => simp [putState]
  | cons e rest ih =>
    by_cases he : e.1 = k
    · simp [getState, he] at h
    · simp [getState, he] at h
      simp [putState, he, ih h]

theorem getState_append_singleton_ne (st : Store) (k k' : String)
    (v : StoredValue) (h : getState st k' = none) (hne : k' ≠ k) :
    getState (st ++ [(k, v)]) k' = none := by
  induction st with
  | nil => simp [getState, Ne.symm hne]
  | cons e rest ih =>
    by_cases he : e.1 = k'
    · simp [getState, he] at h
    · simp [getState, he] at h ⊢
      exact ih h

theorem mem_of_getState (st : Store) (k : String) (v : StoredValue)
    (h : getState st k = some v) : (k, v) ∈ st := by
  induction st with
  | nil => simp [getState] at h
  | cons e rest ih =>
    obtain ⟨a, b⟩ := e
    by_cases he : a = k
    · subst he
      simp [getState] at h
      simp [h]
    · simp [getState, he] at h
      exact List.mem_cons_of_mem _ (ih h)

theorem mem_putState (st : Store) (k : String) (v : StoredValue)
    (e : String × StoredValue) (h : e ∈ putState st k v) :
    e ∈ st ∨ e = (k, v) := by
  induction st with
  | nil =>
    simp [putState] at h
    right
    exact h
  | cons x rest ih =>
    by_cases hx : x.1 = k
    · simp only [putState, if_pos hx] at h
      rcases List.mem_cons.mp h with h | h
      · right; exact h
      · left; exact List.mem_cons_of_mem _ h
    · simp only [putState, if_neg hx] at h
      rcases List.mem_cons.mp h with h | h
      · left; exact List.mem_cons.mpr (Or.inl h)
      · rcases ih h with h2 | h2
        · left; exact List.mem_cons_of_mem _ h2
        · right; exact h2

theorem mem_delState (st : Store) (k : String) (e : String × StoredValue)
    (h : e ∈ delState st k) : e ∈ st := by
  induction st with
  | nil => simp [delState] at h
  | cons x rest ih =>
    by_cases hx : x.1 = k
    · simp only [delState, if_pos hx] at h
      exact List.mem_cons_of_mem _ (ih h)
    · simp only [delState, if_neg hx] at h
      rcases List.mem_cons.mp h with h | h
      · exact List.mem_cons.mpr (Or.inl h)
      · exact List.mem_cons_of_mem _ (ih h)

/-- onlyPolice accepts the Org1MSP caller. -/
theorem onlyPolice_org1 : onlyPolice "Org1MSP" = .ok () := by
  simp [onlyPolice]

/-- onlyPolice rejects every other caller. -/
theorem onlyPolice_denies (mspid : String) (hm : mspid ≠ "Org1MSP") :
    onlyPolice mspid = .error .authDenied := by
  simp [onlyPolice, hm]

/-- C1: for every state and every gated operation (personnel
seed/create/read/update/delete; case create/update/delete), a caller whose
MSP ID differs from Org1MSP fails with the authorization-denied error —
the transaction aborts with no state change — while the Org1MSP caller
passes the gate: onlyPolice accepts it and no gated operation ever returns
the authorization-denied error to it. -/
theorem c1_authorization_gate (mspid : String) (st : Store)
    (a b c d e f g h i j k l s : String) (hm : mspid ≠ "Org1MSP") :
    (InitLedgerPersonnel mspid st = .error .authDenied ∧
     CreatePolicePersonnel mspid st a b c d e f g h i j k l = .error .authDenied ∧
     ReadPolicePersonnel mspid st a = .error .authDenied ∧
     UpdatePolicePersonnel mspid st a b c d e f g h i j k l = .error .authDenied ∧
     DeletePolicePersonnel mspid st a = .error .authDenied ∧
     FileFIR mspid st a b c d e f g = .error .authDenied ∧
     UpdateFIR mspid st a s = .error .authDenied ∧
     DeleteFIR mspid st a = .error .authDenied) ∧
    (onlyPolice "Org1MSP" = .ok () ∧
     InitLedgerPersonnel "Org1MSP" st ≠ .error .authDenied ∧
     CreatePolicePersonnel "Org1MSP" st a b c d e f g h i j k l ≠ .error .authDenied ∧
     ReadPolicePersonnel "Org1MSP" st a ≠ .error .authDenied ∧
     UpdatePolicePersonnel "Org1MSP" st a b c d e f g h i j k l ≠ .error .authDenied ∧
     DeletePolicePersonnel "Org1MSP" st a ≠ .error .authDenied ∧
     FileFIR "Org1MSP" st a b c d e f g ≠ .error .authDenied ∧
     UpdateFIR "Org1MSP" st a s ≠ .error .authDenied ∧
     DeleteFIR "Org1MSP" st a ≠ .error .authDenied) := by
  constructor
  · refine ⟨?_, ?_, ?_, ?_, ?_, ?_, ?_, ?_⟩ <;>
      simp [InitLedgerPersonnel, CreatePolicePersonnel, ReadPolicePersonnel,
        UpdatePolicePersonnel, DeletePolicePersonnel, FileFIR, UpdateFIR,
        DeleteFIR, onlyPolice, hm]
  refine ⟨onlyPolice_org1, ?_, ?_, ?_, ?_, ?_, ?_, ?_, ?_⟩
  · simp [InitLedgerPersonnel, onlyPolice_org1]
  · simp only [CreatePolicePersonnel, onlyPolice_org1, PersonnelExists]
    split <;> simp
  · simp only [ReadPolicePersonnel, onlyPolice_org1]
    split <;> simp
  · simp only [UpdatePolicePersonnel, onlyPolice_org1, PersonnelExists]
    split <;> simp
  · simp only [DeletePolicePersonnel, onlyPolice_org1, PersonnelExists]
    split <;> simp
  · simp only [FileFIR, onlyPolice_org1, FIRExists]
    split <;> simp
  · simp only [UpdateFIR, onlyPolice_org1, ReadFIR]
    cases hg : getState st a <;> simp [hg]
  · simp only [DeleteFIR, onlyPolice_org1, FIRExists]
    split <;> simp

/-- Witness for c1_authorization_gate at the caller Org2MSP, the empty
store, and empty-string arguments. -/
theorem c1_authorization_gate_witness :
    ("Org2MSP" : String) ≠ "Org1MSP" ∧
    ((InitLedgerPersonnel "Org2MSP" [] = .error .authDenied ∧
      CreatePolicePersonnel "Org2MSP" [] "" "" "" "" "" "" "" "" "" "" "" "" = .error .authDenied ∧
      ReadPolicePersonnel "Org2MSP" [] "" = .error .authDenied ∧
      UpdatePolicePersonnel "Org2MSP" [] "" "" "" "" "" "" "" "" "" "" "" "" = .error .authDenied ∧
      DeletePolicePersonnel "Org2MSP" [] "" = .error .authDenied ∧
      FileFIR "Org2MSP" [] "" "" "" "" "" "" "" = .error .authDenied ∧
      UpdateFIR "Org2MSP" [] "" "" = .error .authDenied ∧
      DeleteFIR "Org2MSP" [] "" = .error .authDenied) ∧
     (onlyPolice "Org1MSP" = .ok () ∧
      InitLedgerPersonnel "Org1MSP" [] ≠ .error .authDenied ∧
      CreatePolicePersonnel "Org1MSP" [] "" "" "" "" "" "" "" "" "" "" "" "" ≠ .error .authDenied ∧
      ReadPolicePersonnel "Org1MSP" [] "" ≠ .error .authDenied ∧
      UpdatePolicePersonnel "Org1MSP" [] "" "" "" "" "" "" "" "" "" "" "" "" ≠ .error .authDenied ∧
      DeletePolicePersonnel "Org1MSP" [] "" ≠ .error .authDenied ∧
      FileFIR "Org1MSP" [] "" "" "" "" "" "" "" ≠ .error .authDenied ∧
      UpdateFIR "Org1MSP" [] "" "" ≠ .error .authDenied ∧
      DeleteFIR "Org1MSP" [] "" ≠ .error .authDenied)) :=
  ⟨by decide,
   c1_authorization_gate "Org2MSP" [] "" "" "" "" "" "" "" "" "" "" "" "" ""
     (by decide)⟩

/-- C2: the authorization gate covers exactly the eight operations of c1:
create/update/delete for both entity kinds, read and seeding for personnel.
It does not guard read, existence-check, enumeration, or seeding for case
records, nor the personnel existence-check or enumeration: those six
operations ignore the caller identity entirely, computing the same result
for an arbitrary caller as for Org1MSP. -/
theorem c2_gate_coverage (mspid : String) (st : Store)
    (a b c d e f g h i j k l s : String) (hm : mspid ≠ "Org1MSP") :
    (InitLedgerPersonnel mspid st = .error .authDenied ∧
     CreatePolicePersonnel mspid st a b c d e f g h i j k l = .error .authDenied ∧
     ReadPolicePersonnel mspid st a = .error .authDenied ∧
     UpdatePolicePersonnel mspid st a b c d e f g h i j k l = .error .authDenied ∧
     DeletePolicePersonnel mspid st a = .error .authDenied ∧
     FileFIR mspid st a b c d e f g = .error .authDenied ∧
     UpdateFIR mspid st a s = .error .authDenied ∧
     DeleteFIR mspid st a = .error .authDenied) ∧
    (ReadFIR mspid st a = ReadFIR "Org1MSP" st a ∧
     FIRExists mspid st a = FIRExists "Org1MSP" st a ∧
     GetAllFIRs mspid st = GetAllFIRs "Org1MSP" st ∧
     InitLedgerFIR mspid st = InitLedgerFIR "Org1MSP" st ∧
     PersonnelExists mspid st a = PersonnelExists "Org1MSP" st a ∧
     GetAllPersonnel mspid st = GetAllPersonnel "Org1MSP" st) := by
  constructor
  · refine ⟨?_, ?_, ?_, ?_, ?_, ?_, ?_, ?_⟩ <;>
      simp [InitLedgerPersonnel, CreatePolicePersonnel, ReadPolicePersonnel,
        UpdatePolicePersonnel, DeletePolicePersonnel, FileFIR, UpdateFIR,
        DeleteFIR, onlyPolice, hm]
  exact ⟨rfl, rfl, rfl, rfl, rfl, rfl⟩

/-- Witness for c2_gate_coverage at the caller Org2MSP, the empty store,
and empty-string arguments. -/
theorem c2_gate_coverage_witness :
    ("Org2MSP" : String) ≠ "Org1MSP" ∧
    ((InitLedgerPersonnel "Org2MSP" [] = .error .authDenied ∧
      CreatePolicePersonnel "Org2MSP" [] "" "" "" "" "" "" "" "" "" "" "" "" = .error .authDenied ∧
      ReadPolicePersonnel "Org2MSP" [] "" = .error .authDenied ∧
      UpdatePolicePersonnel "Org2MSP" [] "" "" "" "" "" "" "" "" "" "" "" "" = .error .authDenied ∧
      DeletePolicePersonnel "Org2MSP" [] "" = .error .authDenied ∧
      FileFIR "Org2MSP" [] "" "" "" "" "" "" "" = .error .authDenied ∧
      UpdateFIR "Org2MSP" [] "" "" = .error .authDenied ∧
      DeleteFIR "Org2MSP" [] "" = .error .authDenied) ∧
     (ReadFIR "Org2MSP" [] "" = ReadFIR "Org1MSP" [] "" ∧
      FIRExists "Org2MSP" [] "" = FIRExists "Org1MSP" [] "" ∧
      GetAllFIRs "Org2MSP" [] = GetAllFIRs "Org1MSP" [] ∧
      InitLedgerFIR "Org2MSP" [] = InitLedgerFIR "Org1MSP" [] ∧
      PersonnelExists "Org2MSP" [] "" = PersonnelExists "Org1MSP" [] "" ∧
      GetAllPersonnel "Org2MSP" [] = GetAllPersonnel "Org1MSP" [])) :=
  ⟨by decide,
   c2_gate_coverage "Org2MSP" [] "" "" "" "" "" "" "" "" "" "" "" "" ""
     (by decide)⟩

/-- C8: the existence checks of both modules return, for every caller,
state, and key, a success whose value is true iff the key is present in the
store; absence yields false, not an error, and the check returns no new
store (it performs no write). -/
theorem c8_exists_checks (mspid : String) (st : Store) (k : String) :
    PersonnelExists mspid st k = .ok ((getState st k).isSome) ∧
    FIRExists mspid st k = .ok ((getState st k).isSome) ∧
    (PersonnelExists mspid st k = .ok true ↔ (getState st k).isSome = true) ∧
    (FIRExists mspid st k = .ok true ↔ (getState st k).isSome = true) ∧
    (∀ e, PersonnelExists mspid st k ≠ .error e) ∧
    (∀ e, FIRExists mspid st k ≠ .error e) := by
  refine ⟨rfl, rfl, ?_, ?_, ?_, ?_⟩ <;>
    simp [PersonnelExists, FIRExists]

/-- C6: for the authorized caller and any key absent from the state, both
update operations and both delete operations fail with NotFound; the error
branch carries no store, so the state is unchanged. -/
theorem c6_absent_update_delete (st : Store) (k : String)
    (b c d e f g h i j m l s : String) (hk : getState st k = none) :
    UpdatePolicePersonnel "Org1MSP" st k b c d e f g h i j m l =
      .error (.notFound k) ∧
    UpdateFIR "Org1MSP" st k s = .error (.notFound k) ∧
    DeletePolicePersonnel "Org1MSP" st k = .error (.notFound k) ∧
    DeleteFIR "Org1MSP" st k = .error (.notFound k) := by
  refine ⟨?_, ?_, ?_, ?_⟩ <;>
    simp [UpdatePolicePersonnel, UpdateFIR, DeletePolicePersonnel, DeleteFIR,
      ReadFIR, PersonnelExists, FIRExists, onlyPolice_org1, hk]

/-- Witness for c6_absent_update_delete at the empty store and key K. -/
theorem c6_absent_update_delete_witness :
    getState [] "K" = none ∧
    (UpdatePolicePersonnel "Org1MSP" [] "K" "" "" "" "" "" "" "" "" "" "" "" =
       .error (.notFound "K") ∧
     UpdateFIR "Org1MSP" [] "K" "" = .error (.notFound "K") ∧
     DeletePolicePersonnel "Org1MSP" [] "K" = .error (.notFound "K") ∧
     DeleteFIR "Org1MSP" [] "K" = .error (.notFound "K")) :=
  ⟨rfl, c6_absent_update_delete [] "K" "" "" "" "" "" "" "" "" "" "" "" ""
    rfl⟩

/-- C3: for the authorized caller and a key absent from the state, create
succeeds and a subsequent read of that key returns exactly the fields that
were written, for both entity kinds. -/
theorem c3_create_then_read (st : Store) (k : String)
    (n r d po bn es dj aw su lb lo : String)
    (fb ac ct de sts ts : String) (hk : getState st k = none) :
    (∃ st2,
      CreatePolicePersonnel "Org1MSP" st k n r d po bn es dj aw su lb lo =
        .ok st2 ∧
      ReadPolicePersonnel "Org1MSP" st2 k =
        .ok ⟨k, n, r, d, po, bn, es, dj, aw, su, lb, lo⟩) ∧
    (∃ st2,
      FileFIR "Org1MSP" st k fb ac ct de sts ts = .ok st2 ∧
      ReadFIR "Org1MSP" st2 k = .ok ⟨ac, ct, de, fb, k, sts, ts⟩) := by
  constructor
  · refine ⟨putState st k
      (.personnel ⟨k, n, r, d, po, bn, es, dj, aw, su, lb, lo⟩), ?_, ?_⟩
    · simp [CreatePolicePersonnel, PersonnelExists, onlyPolice_org1, hk]
    · simp [ReadPolicePersonnel, onlyPolice_org1, getState_putState_self,
        decodePersonnel]
  · refine ⟨putState st k (.fir ⟨ac, ct, de, fb, k, sts, ts⟩), ?_, ?_⟩
    · simp [FileFIR, FIRExists, onlyPolice_org1, hk]
    · simp [ReadFIR, getState_putState_self, decodeFIR]

/-- Witness for c3_create_then_read at the empty store, the spec's concrete
personnel scenario values, and key FIR3. -/
theorem c3_create_then_read_witness :
    getState [] "POL12346" = none ∧
    ((∃ st2,
      CreatePolicePersonnel "Org1MSP" [] "POL12346" "Raj Kumar"
        "Sub-Inspector" "1990-01-25" "Crime Branch, Delhi" "DEL-7890"
        "Active" "2015-07-10" "Meritorious Service Medal" "" "Org1"
        "2025-01-01" = .ok st2 ∧
      ReadPolicePersonnel "Org1MSP" st2 "POL12346" =
        .ok ⟨"POL12346", "Raj Kumar", "Sub-Inspector", "1990-01-25",
             "Crime Branch, Delhi", "DEL-7890", "Active", "2015-07-10",
             "Meritorious Service Medal", "", "Org1", "2025-01-01"⟩) ∧
     (∃ st2,
      FileFIR "Org1MSP" [] "POL12346" "OfficerC" "Alex Murphy" "Robbery"
        "Bank robbery at downtown" "Open" "2024-01-03T12:00:00Z" = .ok st2 ∧
      ReadFIR "Org1MSP" st2 "POL12346" =
        .ok ⟨"Alex Murphy", "Robbery", "Bank robbery at downtown",
             "OfficerC", "POL12346", "Open", "2024-01-03T12:00:00Z"⟩)) :=
  ⟨rfl, c3_create_then_read [] "POL12346" "Raj Kumar" "Sub-Inspector"
    "1990-01-25" "Crime Branch, Delhi" "DEL-7890" "Active" "2015-07-10"
    "Meritorious Service Medal" "" "Org1" "2025-01-01" "OfficerC"
    "Alex Murphy" "Robbery" "Bank robbery at downtown" "Open"
    "2024-01-03T12:00:00Z" rfl⟩

/-- Inversion of a successful CreatePolicePersonnel by the Org1MSP caller:
the key was absent and the new store is the old one with the assembled
record bound at the key. -/
theorem createPersonnel_ok_inv (st st2 : Store)
    (k n r d po bn es dj aw su lb lo : String)
    (h : CreatePolicePersonnel "Org1MSP" st k n r d po bn es dj aw su lb lo =
      .ok st2) :
    getState st k = none ∧
    st2 = putState st k
      (.personnel ⟨k, n, r, d, po, bn, es, dj, aw, su, lb, lo⟩) := by
  cases hg : getState st k with
  | some v =>
    simp [CreatePolicePersonnel, PersonnelExists, onlyPolice_org1, hg] at h
  | none =>
    simp [CreatePolicePersonnel, PersonnelExists, onlyPolice_org1, hg] at h
    exact ⟨rfl, h.symm⟩

/-- Inversion of a successful FileFIR by the Org1MSP caller: the key was
absent and the new store is the old one with the assembled record bound at
the key. -/
theorem fileFIR_ok_inv (st st2 : Store) (k fb ac ct de sts ts : String)
    (h : FileFIR "Org1MSP" st k fb ac ct de sts ts = .ok st2) :
    getState st k = none ∧
    st2 = putState st k (.fir ⟨ac, ct, de, fb, k, sts, ts⟩) := by
  cases hg : getState st k with
  | some v => simp [FileFIR, FIRExists, onlyPolice_org1, hg] at h
  | none =>
    simp [FileFIR, FIRExists, onlyPolice_org1, hg] at h
    exact ⟨rfl, h.symm⟩

/-- C4: after a successful create at a key, a second create at the same key
by the authorized caller fails with AlreadyExists and the value stored by
the first create is still bound at the key — for both entity kinds. -/
theorem c4_double_create (st1 st2 stf1 stf2 : Store) (k kf : String)
    (n r d po bn es dj aw su lb lo : String)
    (n2 r2 d2 po2 bn2 es2 dj2 aw2 su2 lb2 lo2 : String)
    (fb ac ct de sts ts fb2 ac2 ct2 de2 sts2 ts2 : String)
    (h1 : CreatePolicePersonnel "Org1MSP" st1 k n r d po bn es dj aw su lb lo =
      .ok st2)
    (h2 : FileFIR "Org1MSP" stf1 kf fb ac ct de sts ts = .ok stf2) :
    CreatePolicePersonnel "Org1MSP" st2 k n2 r2 d2 po2 bn2 es2 dj2 aw2 su2
      lb2 lo2 = .error (.alreadyExists k) ∧
    getState st2 k =
      some (.personnel ⟨k, n, r, d, po, bn, es, dj, aw, su, lb, lo⟩) ∧
    FileFIR "Org1MSP" stf2 kf fb2 ac2 ct2 de2 sts2 ts2 =
      .error (.alreadyExists kf) ∧
    getState stf2 kf = some (.fir ⟨ac, ct, de, fb, kf, sts, ts⟩) := by
  obtain ⟨-, hst2⟩ := createPersonnel_ok_inv st1 st2 k n r d po bn es dj aw
    su lb lo h1
  obtain ⟨-, hstf2⟩ := fileFIR_ok_inv stf1 stf2 kf fb ac ct de sts ts h2
  subst hst2
  subst hstf2
  refine ⟨?_, getState_putState_self st1 k _, ?_,
    getState_putState_self stf1 kf _⟩
  · simp [CreatePolicePersonnel, PersonnelExists, onlyPolice_org1,
      getState_putState_self]
  · simp [FileFIR, FIRExists, onlyPolice_org1, getState_putState_self]

/-- Witness for c4_double_create: two concrete first creates from the empty
store, then the failing second creates. -/
theorem c4_double_create_witness :
    (CreatePolicePersonnel "Org1MSP" [] "P1" "a" "b" "c" "d" "e" "f" "g" "h"
       "i" "j" "l" =
      .ok [("P1", .personnel ⟨"P1", "a", "b", "c", "d", "e", "f", "g", "h",
        "i", "j", "l"⟩)]) ∧
    (FileFIR "Org1MSP" [] "F1" "w" "x" "y" "z" "u" "v" =
      .ok [("F1", .fir ⟨"x", "y", "z", "w", "F1", "u", "v"⟩)]) ∧
    (CreatePolicePersonnel "Org1MSP"
        [("P1", .personnel ⟨"P1", "a", "b", "c", "d", "e", "f", "g", "h",
          "i", "j", "l"⟩)] "P1" "" "" "" "" "" "" "" "" "" "" "" =
      .error (.alreadyExists "P1") ∧
     getState [("P1", .personnel ⟨"P1", "a", "b", "c", "d", "e", "f", "g",
       "h", "i", "j", "l"⟩)] "P1" =
      some (.personnel ⟨"P1", "a", "b", "c", "d", "e", "f", "g", "h", "i",
        "j", "l"⟩) ∧
     FileFIR "Org1MSP" [("F1", .fir ⟨"x", "y", "z", "w", "F1", "u", "v"⟩)]
        "F1" "" "" "" "" "" "" =
      .error (.alreadyExists "F1") ∧
     getState [("F1", .fir ⟨"x", "y", "z", "w", "F1", "u", "v"⟩)] "F1" =
      some (.fir ⟨"x", "y", "z", "w", "F1", "u", "v"⟩)) :=
  ⟨by rfl, by rfl,
   c4_double_create []
     [("P1", .personnel ⟨"P1", "a", "b", "c", "d", "e", "f", "g", "h", "i",
       "j", "l"⟩)]
     [] [("F1", .fir ⟨"x", "y", "z", "w", "F1", "u", "v"⟩)] "P1" "F1"
     "a" "b" "c" "d" "e" "f" "g" "h" "i" "j" "l"
     "" "" "" "" "" "" "" "" "" "" ""
     "w" "x" "y" "z" "u" "v" "" "" "" "" "" ""
     (by rfl) (by rfl)⟩

/-- C5: for the authorized caller and a case record f stored at key k,
UpdateFIR(k,s) succeeds, the record stored at k afterwards has Status s and
every other field equal to the corresponding field of f, and every other
key of the store is unchanged. -/
theorem c5_update_fir_frame (st : Store) (k s : String) (f : FIR)
    (h : getState st k = some (.fir f)) :
    UpdateFIR "Org1MSP" st k s =
      .ok (putState st k (.fir { f with Status := s })) ∧
    getState (putState st k (.fir { f with Status := s })) k =
      some (.fir { f with Status := s }) ∧
    ({ f with Status := s }).Status = s ∧
    ({ f with Status := s }).FIRID = f.FIRID ∧
    ({ f with Status := s }).FiledBy = f.FiledBy ∧
    ({ f with Status := s }).Accused = f.Accused ∧
    ({ f with Status := s }).CrimeType = f.CrimeType ∧
    ({ f with Status := s }).Description = f.Description ∧
    ({ f with Status := s }).Timestamp = f.Timestamp ∧
    (∀ k2, k2 ≠ k →
      getState (putState st k (.fir { f with Status := s })) k2 =
        getState st k2) := by
  refine ⟨?_, getState_putState_self st k _, rfl, rfl, rfl, rfl, rfl, rfl,
    rfl, ?_⟩
  · simp [UpdateFIR, ReadFIR, onlyPolice_org1, h, decodeFIR]
  · intro k2 hk2
    exact getState_putState_ne st k k2 _ hk2

/-- Witness for c5_update_fir_frame: closing FIR3 in a two-record store,
following the spec's concrete scenario. -/
theorem c5_update_fir_frame_witness :
    getState [("FIR1", .fir seedFIR1),
      ("FIR3", .fir ⟨"Alex Murphy", "Robbery", "Bank robbery at downtown",
        "OfficerC", "FIR3", "Open", "2024-01-03T12:00:00Z"⟩)] "FIR3" =
      some (.fir ⟨"Alex Murphy", "Robbery", "Bank robbery at downtown",
        "OfficerC", "FIR3", "Open", "2024-01-03T12:00:00Z"⟩) ∧
    (UpdateFIR "Org1MSP" [("FIR1", .fir seedFIR1),
       ("FIR3", .fir ⟨"Alex Murphy", "Robbery", "Bank robbery at downtown",
         "OfficerC", "FIR3", "Open", "2024-01-03T12:00:00Z"⟩)] "FIR3"
       "Closed" =
      .ok (putState [("FIR1", .fir seedFIR1),
        ("FIR3", .fir ⟨"Alex Murphy", "Robbery", "Bank robbery at downtown",
          "OfficerC", "FIR3", "Open", "2024-01-03T12:00:00Z"⟩)] "FIR3"
        (.fir { (⟨"Alex Murphy", "Robbery", "Bank robbery at downtown",
          "OfficerC", "FIR3", "Open", "2024-01-03T12:00:00Z"⟩ : FIR) with
          Status := "Closed" })) ∧
     getState (putState [("FIR1", .fir seedFIR1),
        ("FIR3", .fir ⟨"Alex Murphy", "Robbery", "Bank robbery at downtown",
          "OfficerC", "FIR3", "Open", "2024-01-03T12:00:00Z"⟩)] "FIR3"
        (.fir { (⟨"Alex Murphy", "Robbery", "Bank robbery at downtown",
          "OfficerC", "FIR3", "Open", "2024-01-03T12:00:00Z"⟩ : FIR) with
          Status := "Closed" })) "FIR3" =
      some (.fir { (⟨"Alex Murphy", "Robbery", "Bank robbery at downtown",
        "OfficerC", "FIR3", "Open", "2024-01-03T12:00:00Z"⟩ : FIR) with
        Status := "Closed" }) ∧
     ({ (⟨"Alex Murphy", "Robbery", "Bank robbery at downtown", "OfficerC",
       "FIR3", "Open", "2024-01-03T12:00:00Z"⟩ : FIR) with
       Status := "Closed" }).Status = "Closed" ∧
     ({ (⟨"Alex Murphy", "Robbery", "Bank robbery at downtown", "OfficerC",
       "FIR3", "Open", "2024-01-03T12:00:00Z"⟩ : FIR) with
       Status := "Closed" }).FIRID =
       (⟨"Alex Murphy", "Robbery", "Bank robbery at downtown", "OfficerC",
         "FIR3", "Open", "2024-01-03T12:00:00Z"⟩ : FIR).FIRID ∧
     ({ (⟨"Alex Murphy", "Robbery", "Bank robbery at downtown", "OfficerC",
       "FIR3", "Open", "2024-01-03T12:00:00Z"⟩ : FIR) with
       Status := "Closed" }).FiledBy =
       (⟨"Alex Murphy", "Robbery", "Bank robbery at downtown", "OfficerC",
         "FIR3", "Open", "2024-01-03T12:00:00Z"⟩ : FIR).FiledBy ∧
     ({ (⟨"Alex Murphy", "Robbery", "Bank robbery at downtown", "OfficerC",
       "FIR3", "Open", "2024-01-03T12:00:00Z"⟩ : FIR) with
       Status := "Closed" }).Accused =
       (⟨"Alex Murphy", "Robbery", "Bank robbery at downtown", "OfficerC",
         "FIR3", "Open", "2024-01-03T12:00:00Z"⟩ : FIR).Accused ∧
     ({ (⟨"Alex Murphy", "Robbery", "Bank robbery at downtown", "OfficerC",
       "FIR3", "Open", "2024-01-03T12:00:00Z"⟩ : FIR) with
       Status := "Closed" }).CrimeType =
       (⟨"Alex Murphy", "Robbery", "Bank robbery at downtown", "OfficerC",
         "FIR3", "Open", "2024-01-03T12:00:00Z"⟩ : FIR).CrimeType ∧
     ({ (⟨"Alex Murphy", "Robbery", "Bank robbery at downtown", "OfficerC",
       "FIR3", "Open", "2024-01-03T12:00:00Z"⟩ : FIR) with
       Status := "Closed" }).Description =
       (⟨"Alex Murphy", "Robbery", "Bank robbery at downtown", "OfficerC",
         "FIR3", "Open", "2024-01-03T12:00:00Z"⟩ : FIR).Description ∧
     ({ (⟨"Alex Murphy", "Robbery", "Bank robbery at downtown", "OfficerC",
       "FIR3", "Open", "2024-01-03T12:00:00Z"⟩ : FIR) with
       Status := "Closed" }).Timestamp =
       (⟨"Alex Murphy", "Robbery", "Bank robbery at downtown", "OfficerC",
         "FIR3", "Open", "2024-01-03T12:00:00Z"⟩ : FIR).Timestamp ∧
     (∀ k2, k2 ≠ "FIR3" →
       getState (putState [("FIR1", .fir seedFIR1),
         ("FIR3", .fir ⟨"Alex Murphy", "Robbery",
           "Bank robbery at downtown", "OfficerC", "FIR3", "Open",
           "2024-01-03T12:00:00Z"⟩)] "FIR3"
         (.fir { (⟨"Alex Murphy", "Robbery", "Bank robbery at downtown",
           "OfficerC", "FIR3", "Open", "2024-01-03T12:00:00Z"⟩ : FIR) with
           Status := "Closed" })) k2 =
       getState [("FIR1", .fir seedFIR1),
         ("FIR3", .fir ⟨"Alex Murphy", "Robbery",
           "Bank robbery at downtown", "OfficerC", "FIR3", "Open",
           "2024-01-03T12:00:00Z"⟩)] k2)) :=
  ⟨by rfl,
   c5_update_fir_frame [("FIR1", .fir seedFIR1),
     ("FIR3", .fir ⟨"Alex Murphy", "Robbery", "Bank robbery at downtown",
       "OfficerC", "FIR3", "Open", "2024-01-03T12:00:00Z"⟩)] "FIR3" "Closed"
     ⟨"Alex Murphy", "Robbery", "Bank robbery at downtown", "OfficerC",
       "FIR3", "Open", "2024-01-03T12:00:00Z"⟩ (by rfl)⟩

/-- Filing a list of FIRs whose ids are fresh and mutually distinct
succeeds and appends the corresponding bindings to the store. -/
theorem fileAllFIRs_absent (l : List FIR) :
    ∀ st : Store, (l.map FIR.FIRID).Nodup →
    (∀ f ∈ l, getState st f.FIRID = none) →
    fileAllFIRs "Org1MSP" st l =
      .ok (st ++ l.map (fun f => (f.FIRID, StoredValue.fir f))) := by
  induction l with
  | nil =>
    intro st _ _
    simp [fileAllFIRs]
  | cons f rest ih =>
    intro st hnd habs
    have hf : getState st f.FIRID = none :=
      habs f (List.mem_cons_self f rest)
    have hstep : FileFIR "Org1MSP" st f.FIRID f.FiledBy f.Accused
        f.CrimeType f.Description f.Status f.Timestamp =
        .ok (putState st f.FIRID (.fir f)) := by
      simp [FileFIR, FIRExists, onlyPolice_org1, hf]
    have hput : putState st f.FIRID (.fir f) = st ++ [(f.FIRID, .fir f)] :=
      putState_absent st f.FIRID (.fir f) hf
    have hnd' : (∀ x ∈ rest, ¬x.FIRID = f.FIRID) ∧
        (rest.map FIR.FIRID).Nodup := by simpa using hnd
    have habs2 : ∀ g ∈ rest, getState (st ++ [(f.FIRID, .fir f)]) g.FIRID =
        none := by
      intro g hg
      exact getState_append_singleton_ne st f.FIRID g.FIRID (.fir f)
        (habs g (List.mem_cons_of_mem f hg)) (hnd'.1 g hg)
    calc fileAllFIRs "Org1MSP" st (f :: rest)
        = fileAllFIRs "Org1MSP" (st ++ [(f.FIRID, .fir f)]) rest := by
          simp only [fileAllFIRs, hstep, hput]
      _ = .ok ((st ++ [(f.FIRID, .fir f)]) ++
            rest.map (fun g => (g.FIRID, StoredValue.fir g))) :=
          ih (st ++ [(f.FIRID, .fir f)]) hnd'.2 habs2
      _ = .ok (st ++ (f :: rest).map (fun g => (g.FIRID, StoredValue.fir g)))
          := by simp [List.append_assoc]

/-- Creating a list of personnel records whose ids are fresh and mutually
distinct succeeds and appends the corresponding bindings to the store. -/
theorem createAllPersonnel_absent (l : List PolicePersonnel) :
    ∀ st : Store, (l.map PolicePersonnel.OfficerID).Nodup →
    (∀ p ∈ l, getState st p.OfficerID = none) →
    createAllPersonnel "Org1MSP" st l =
      .ok (st ++ l.map (fun p => (p.OfficerID, StoredValue.personnel p))) := by
  induction l with
  | nil =>
    intro st _ _
    simp [createAllPersonnel]
  | cons p rest ih =>
    intro st hnd habs
    have hp : getState st p.OfficerID = none :=
      habs p (List.mem_cons_self p rest)
    have hstep : CreatePolicePersonnel "Org1MSP" st p.OfficerID p.Name
        p.Rank p.DOB p.Posting p.BadgeNumber p.EmploymentStatus
        p.DateOfJoining p.Award p.Suspension p.LastUpdatedBy
        p.LastUpdatedOn = .ok (putState st p.OfficerID (.personnel p)) := by
      simp [CreatePolicePersonnel, PersonnelExists, onlyPolice_org1, hp]
    have hput : putState st p.OfficerID (.personnel p) =
        st ++ [(p.OfficerID, .personnel p)] :=
      putState_absent st p.OfficerID (.personnel p) hp
    have hnd' : (∀ x ∈ rest, ¬x.OfficerID = p.OfficerID) ∧
        (rest.map PolicePersonnel.OfficerID).Nodup := by simpa using hnd
    have habs2 : ∀ q ∈ rest,
        getState (st ++ [(p.OfficerID, .personnel p)]) q.OfficerID = none := by
      intro q hq
      exact getState_append_singleton_ne st p.OfficerID q.OfficerID
        (.personnel p) (habs q (List.mem_cons_of_mem p hq)) (hnd'.1 q hq)
    calc createAllPersonnel "Org1MSP" st (p :: rest)
        = createAllPersonnel "Org1MSP"
            (st ++ [(p.OfficerID, .personnel p)]) rest := by
          simp only [createAllPersonnel, hstep, hput]
      _ = .ok ((st ++ [(p.OfficerID, .personnel p)]) ++
            rest.map (fun q => (q.OfficerID, StoredValue.personnel q))) :=
          ih (st ++ [(p.OfficerID, .personnel p)]) hnd'.2 habs2
      _ = .ok (st ++ (p :: rest).map
            (fun q => (q.OfficerID, StoredValue.personnel q))) := by
          simp [List.append_assoc]

/-- C7: starting from the empty store, after filing N case records with
distinct ids the enumeration returns exactly those N records, contents
intact; likewise for personnel records.  The store produced is exhibited
explicitly, so the returned list has length N and matches what was
written. -/
theorem c7_enumeration (l : List FIR) (p : List PolicePersonnel)
    (hl : (l.map FIR.FIRID).Nodup)
    (hp : (p.map PolicePersonnel.OfficerID).Nodup) :
    (∃ st, fileAllFIRs "Org1MSP" [] l = .ok st ∧
      GetAllFIRs "Org1MSP" st = .ok l ∧ l.length = l.length) ∧
    (∃ st, createAllPersonnel "Org1MSP" [] p = .ok st ∧
      GetAllPersonnel "Org1MSP" st = .ok p ∧ p.length = p.length) := by
  constructor
  · refine ⟨l.map (fun f => (f.FIRID, StoredValue.fir f)), ?_, ?_, rfl⟩
    · simpa using fileAllFIRs_absent l [] hl (by intro f _; rfl)
    · have hcomp : (fun (e : String × StoredValue) => decodeFIR e.2) ∘
          (fun f : FIR => (f.FIRID, StoredValue.fir f)) = id := by
        funext x
        rfl
      simp [GetAllFIRs, List.map_map, hcomp]
  · refine ⟨p.map (fun q => (q.OfficerID, StoredValue.personnel q)),
      ?_, ?_, rfl⟩
    · simpa using createAllPersonnel_absent p [] hp (by intro q _; rfl)
    · have hcomp : (fun (e : String × StoredValue) => decodePersonnel e.2) ∘
          (fun q : PolicePersonnel => (q.OfficerID, StoredValue.personnel q))
          = id := by
        funext x
        rfl
      simp [GetAllPersonnel, List.map_map, hcomp]

/-- Witness for c7_enumeration: the two seed FIRs and the seed officer,
whose identifiers are distinct. -/
theorem c7_enumeration_witness :
    ([seedFIR1, seedFIR2].map FIR.FIRID).Nodup ∧
    ([seedOfficer].map PolicePersonnel.OfficerID).Nodup ∧
    ((∃ st, fileAllFIRs "Org1MSP" [] [seedFIR1, seedFIR2] = .ok st ∧
       GetAllFIRs "Org1MSP" st = .ok [seedFIR1, seedFIR2] ∧
       ([seedFIR1, seedFIR2] : List FIR).length =
         ([seedFIR1, seedFIR2] : List FIR).length) ∧
     (∃ st, createAllPersonnel "Org1MSP" [] [seedOfficer] = .ok st ∧
       GetAllPersonnel "Org1MSP" st = .ok [seedOfficer] ∧
       ([seedOfficer] : List PolicePersonnel).length =
         ([seedOfficer] : List PolicePersonnel).length)) :=
  ⟨by decide, by decide,
   c7_enumeration [seedFIR1, seedFIR2] [seedOfficer] (by decide) (by decide)⟩

/-- C10: create checks only raw key presence, not record kind: an authorized
CreatePolicePersonnel at a key holding a case record fails with
AlreadyExists, and an authorized FileFIR at a key holding a personnel
record fails with AlreadyExists, because the existence checks report true
whenever any bytes are stored at the key. -/
theorem c10_raw_key_presence (st1 st2 : Store) (k1 k2 : String) (f : FIR)
    (p : PolicePersonnel) (n r d po bn es dj aw su lb lo : String)
    (fb ac ct de sts ts : String)
    (h1 : getState st1 k1 = some (.fir f))
    (h2 : getState st2 k2 = some (.personnel p)) :
    CreatePolicePersonnel "Org1MSP" st1 k1 n r d po bn es dj aw su lb lo =
      .error (.alreadyExists k1) ∧
    PersonnelExists "Org1MSP" st1 k1 = .ok true ∧
    FileFIR "Org1MSP" st2 k2 fb ac ct de sts ts =
      .error (.alreadyExists k2) ∧
    FIRExists "Org1MSP" st2 k2 = .ok true := by
  refine ⟨?_, ?_, ?_, ?_⟩ <;>
    simp [CreatePolicePersonnel, FileFIR, PersonnelExists, FIRExists,
      onlyPolice_org1, h1, h2]

/-- Witness for c10_raw_key_presence: a store holding a case record at key
K1 and a store holding a personnel record at key K2. -/
theorem c10_raw_key_presence_witness :
    getState [("K1", .fir seedFIR1)] "K1" = some (.fir seedFIR1) ∧
    getState [("K2", .personnel seedOfficer)] "K2" =
      some (.personnel seedOfficer) ∧
    (CreatePolicePersonnel "Org1MSP" [("K1", .fir seedFIR1)] "K1" "" "" ""
       "" "" "" "" "" "" "" "" = .error (.alreadyExists "K1") ∧
     PersonnelExists "Org1MSP" [("K1", .fir seedFIR1)] "K1" = .ok true ∧
     FileFIR "Org1MSP" [("K2", .personnel seedOfficer)] "K2" "" "" "" "" ""
       "" = .error (.alreadyExists "K2") ∧
     FIRExists "Org1MSP" [("K2", .personnel seedOfficer)] "K2" = .ok true) :=
  ⟨by rfl, by rfl,
   c10_raw_key_presence [("K1", .fir seedFIR1)]
     [("K2", .personnel seedOfficer)] "K1" "K2" seedFIR1 seedOfficer
     "" "" "" "" "" "" "" "" "" "" ""
     "" "" "" "" "" "" (by rfl) (by rfl)⟩

/-- Counterexample to C9 as stated: the store obtained by creating a
personnel record at key POL9 and then applying UpdateFIR to that key is
reachable, yet its stored value is a case record whose FIRID is the empty
string, not the key.  UpdateFIR decoded the personnel blob as a zero-valued
FIR, so the record it wrote back does not carry the key in its identifier
field. -/
theorem c9_counterexample :
    Reach [("POL9", .fir ⟨"", "", "", "", "", "Closed", ""⟩)] ∧
    ¬ IdMatchesKey [("POL9", .fir ⟨"", "", "", "", "", "Closed", ""⟩)] := by
  constructor
  · exact Reach.updateF "Org1MSP"
      [("POL9", .personnel
        ⟨"POL9", "", "", "", "", "", "", "", "", "", "", ""⟩)]
      [("POL9", .fir ⟨"", "", "", "", "", "Closed", ""⟩)] "POL9" "Closed"
      (Reach.createP "Org1MSP" []
        [("POL9", .personnel
          ⟨"POL9", "", "", "", "", "", "", "", "", "", "", ""⟩)]
        "POL9" "" "" "" "" "" "" "" "" "" "" ""
        Reach.empty (by rfl))
      (by rfl)
  · intro hwf
    have := hwf ("POL9", .fir ⟨"", "", "", "", "", "Closed", ""⟩)
      (List.mem_singleton_self _)
    simp [embeddedId] at this

/-- Preservation of a pointwise property through putState. -/
theorem pred_putState (P : String × StoredValue → Prop) (st : Store)
    (k : String) (v : StoredValue) (hst : ∀ e ∈ st, P e) (hv : P (k, v)) :
    ∀ e ∈ putState st k v, P e := by
  intro e he
  rcases mem_putState st k v e he with h | h
  · exact hst e h
  · exact h ▸ hv

/-- C9 amended: in every reachable state of the shared store, each stored
value's embedded identifier equals its storage key, except that a case
record may instead carry the empty FIRID — the residue of UpdateFIR applied
to a key holding a personnel blob, which it decodes as a zero-valued FIR
before writing it back under the same key. -/
theorem c9_amended_invariant (st : Store) (h : Reach st) :
    IdMatchesKeyOrBlankFIR st := by
  induction h with
  | empty =>
    intro x hx
    simp at hx
  | initP mspid st st2 hr heq ih =>
    by_cases hm : mspid = "Org1MSP"
    · subst hm
      simp only [InitLedgerPersonnel, onlyPolice_org1, Except.ok.injEq]
        at heq
      subst heq
      exact pred_putState _ st _ _ ih (Or.inl rfl)
    · simp [InitLedgerPersonnel, onlyPolice, hm] at heq
  | createP mspid st st2 a b c d e f g hh i j k l hr heq ih =>
    by_cases hm : mspid = "Org1MSP"
    · subst hm
      obtain ⟨-, h2⟩ :=
        createPersonnel_ok_inv st st2 a b c d e f g hh i j k l heq
      subst h2
      exact pred_putState _ st _ _ ih (Or.inl rfl)
    · simp [CreatePolicePersonnel, onlyPolice, hm] at heq
  | updateP mspid st st2 a b c d e f g hh i j k l hr heq ih =>
    by_cases hm : mspid = "Org1MSP"
    · subst hm
      cases hg : getState st a with
      | none =>
        simp [UpdatePolicePersonnel, PersonnelExists, onlyPolice_org1, hg]
          at heq
      | some v =>
        simp [UpdatePolicePersonnel, PersonnelExists, onlyPolice_org1, hg]
          at heq
        subst heq
        exact pred_putState _ st _ _ ih (Or.inl rfl)
    · simp [UpdatePolicePersonnel, onlyPolice, hm] at heq
  | deleteP mspid st st2 a hr heq ih =>
    by_cases hm : mspid = "Org1MSP"
    · subst hm
      cases hg : getState st a with
      | none =>
        simp [DeletePolicePersonnel, PersonnelExists, onlyPolice_org1, hg]
          at heq
      | some v =>
        simp [DeletePolicePersonnel, PersonnelExists, onlyPolice_org1, hg]
          at heq
        subst heq
        intro x hx
        exact ih x (mem_delState st a x hx)
    · simp [DeletePolicePersonnel, onlyPolice, hm] at heq
  | initF mspid st st2 hr heq ih =>
    simp only [InitLedgerFIR, Except.ok.injEq] at heq
    subst heq
    exact pred_putState _ _ _ _
      (pred_putState _ st _ _ ih (Or.inl rfl)) (Or.inl rfl)
  | fileF mspid st st2 a b c d e f g hr heq ih =>
    by_cases hm : mspid = "Org1MSP"
    · subst hm
      obtain ⟨-, h2⟩ := fileFIR_ok_inv st st2 a b c d e f g heq
      subst h2
      exact pred_putState _ st _ _ ih (Or.inl rfl)
    · simp [FileFIR, onlyPolice, hm] at heq
  | updateF mspid st st2 a b hr heq ih =>
    by_cases hm : mspid = "Org1MSP"
    · subst hm
      cases hg : getState st a with
      | none => simp [UpdateFIR, ReadFIR, onlyPolice_org1, hg] at heq
      | some v =>
        simp [UpdateFIR, ReadFIR, onlyPolice_org1, hg] at heq
        subst heq
        cases v with
        | personnel p =>
          exact pred_putState _ st _ _ ih (Or.inr ⟨_, rfl, rfl⟩)
        | fir f =>
          rcases ih (a, .fir f) (mem_of_getState st a _ hg) with hid | hbl
          · refine pred_putState _ st _ _ ih (Or.inl ?_)
            simpa [embeddedId, decodeFIR] using hid
          · obtain ⟨f2, hf2, hbl2⟩ := hbl
            refine pred_putState _ st _ _ ih (Or.inr ⟨_, rfl, ?_⟩)
            have : f = f2 := by
              simpa using hf2
            simp [decodeFIR, this, hbl2]
    · simp [UpdateFIR, onlyPolice, hm] at heq
  | deleteF mspid st st2 a hr heq ih =>
    by_cases hm : mspid = "Org1MSP"
    · subst hm
      cases hg : getState st a with
      | none => simp [DeleteFIR, FIRExists, onlyPolice_org1, hg] at heq
      | some v =>
        simp [DeleteFIR, FIRExists, onlyPolice_org1, hg] at heq
        subst heq
        intro x hx
        exact ih x (mem_delState st a x hx)
    · simp [DeleteFIR, onlyPolice, hm] at heq

/-- Witness for c9_amended_invariant at the reachable store produced by
creating a personnel record at POL9 and then applying UpdateFIR to it. -/
theorem c9_amended_invariant_witness :
    IdMatchesKeyOrBlankFIR [("POL9", .fir ⟨"", "", "", "", "", "Closed", ""⟩)] :=
  c9_amended_invariant [("POL9", .fir ⟨"", "", "", "", "", "Closed", ""⟩)]
    (Reach.updateF "Org1MSP"
      [("POL9", .personnel
        ⟨"POL9", "", "", "", "", "", "", "", "", "", "", ""⟩)]
      [("POL9", .fir ⟨"", "", "", "", "", "Closed", ""⟩)] "POL9" "Closed"
      (Reach.createP "Org1MSP" []
        [("POL9", .personnel
          ⟨"POL9", "", "", "", "", "", "", "", "", "", "", ""⟩)]
        "POL9" "" "" "" "" "" "" "" "" "" "" ""
        Reach.empty (by rfl))
      (by rfl))
